import Mathlib

/-!
Shallow embedding of the `translator`, `openai_client`, `document_processor`
and `main` modules of the repository (Azure translation / summarization
façade).  Remote HTTP interactions are modelled by explicit oracle values
describing what the network would return; each client function additionally
reports whether it would have touched the network (or what request it would
have sent), so that short-circuit properties are statable.  Paths on which
the Python code would raise an uncaught exception are modelled by `Option`
results (`none` = exception propagates).
-/

/-- Python truthiness of an optional string: `None` and `""` are falsy. -/
def strTruthy : Option String → Bool
  | none => false
  | some s => s ≠ ""

/-- Python `a or b` on optional strings (left operand wins when truthy). -/
def pyOr (a b : Option String) : Option String :=
  if strTruthy a then a else b

/-- Python `f"{x}"` on an optional string: `None` prints as `"None"`. -/
def pyFstr (o : Option String) : String :=
  match o with
  | some s => s
  | none => "None"

/-! ## translator.py -/

/-- Environment variables read by `translator.py` (`os.getenv`). -/
structure TranslatorEnv where
  key : Option String       -- AZURE_TRANSLATOR_KEY
  region : Option String    -- AZURE_TRANSLATOR_REGION
  endpoint : Option String  -- AZURE_TRANSLATOR_ENDPOINT

/-- One element of the translator's parsed 2xx JSON response:
`{"translations": [{"text": ...}, ...], "detectedLanguage": {"language": ...}?}`. -/
structure TransItem where
  translations : List String
  detectedLanguage : Option String

/-- Outcome of the POST in `translate_text`, as observed after
`raise_for_status` / `response.json()`:
* `ok`: 2xx with a parsed JSON array body;
* `httpError`: non-2xx (`HTTPError`), carrying the status code and, when the
  error body parses as JSON with an `"error"` key, `some` of
  `error.get("message", "")`;
* `reqError`: any other `RequestException` (timeout, connection error,
  undecodable 2xx body), carrying `str(e)`. -/
inductive TransNet where
  | ok (body : List TransItem)
  | httpError (status : Nat) (detail : Option String)
  | reqError (msg : String)

/-- The dict returned by `translate_text` (absent keys modelled as `none`). -/
structure TranslationResult where
  success : Bool
  original_text : String
  translated_text : Option String
  source_language : String
  target_language : String
  detected_language : Option String
  error : Option String
deriving DecidableEq, Repr

/-- `translator.translate_text`.  Returns the result (`none` when the Python
code would raise an uncaught exception, i.e. `result[0]["translations"][0]`
on an empty `translations` array) paired with a flag recording whether the
network POST was performed. -/
def translate_text (text source_lang target_lang : String)
    (api_key region endpoint : Option String)
    (env : TranslatorEnv) (net : TransNet) :
    Option TranslationResult × Bool :=
  let api_key := pyOr api_key env.key
  let _region := pyOr region (some (env.region.getD "centralindia"))
  let _endpoint := pyOr endpoint
    (some (env.endpoint.getD "https://api.cognitive.microsofttranslator.com/"))
  if ¬ strTruthy api_key then
    (some { success := false
            error := some "Missing AZURE_TRANSLATOR_KEY. Please set it in .env file."
            original_text := text
            translated_text := none
            source_language := source_lang
            target_language := target_lang
            detected_language := none }, false)
  else
    match net with
    | TransNet.ok body =>
      match body with
      | [] =>
        (some { success := false
                error := some "Empty response from Translator API"
                original_text := text
                translated_text := none
                source_language := source_lang
                target_language := target_lang
                detected_language := none }, true)
      | translation :: _ =>
        match translation.translations with
        | [] => (none, true)   -- IndexError: uncaught, propagates
        | t :: _ =>
          (some { success := true
                  original_text := text
                  translated_text := some t
                  source_language := source_lang
                  target_language := target_lang
                  detected_language := translation.detectedLanguage
                  error := none }, true)
    | TransNet.httpError status detail =>
      let base := "HTTP Error: " ++ toString status
      let error_msg :=
        match detail with
        | some m => base ++ " - " ++ m
        | none => base
      (some { success := false
              error := some error_msg
              original_text := text
              translated_text := none
              source_language := source_lang
              target_language := target_lang
              detected_language := none }, true)
    | TransNet.reqError msg =>
      (some { success := false
              error := some ("Request failed: " ++ msg)
              original_text := text
              translated_text := none
              source_language := source_lang
              target_language := target_lang
              detected_language := none }, true)

/-- Outcome of the GET in `get_supported_languages`: `ok` carries
`response.json().get("translation", {})` as an association list, `err`
carries `str(e)` of whatever exception was raised. -/
inductive LangNet where
  | ok (translation : List (String × String))
  | err (msg : String)

/-- The dict returned by `get_supported_languages`. -/
structure LanguagesResult where
  success : Bool
  languages : List (String × String)
  error : Option String
deriving DecidableEq, Repr

/-- `translator.get_supported_languages`.  Reads only the endpoint from the
environment; sends no credentials (the request has no key/region headers). -/
def get_supported_languages (env : TranslatorEnv) (net : LangNet) :
    LanguagesResult :=
  let _endpoint := env.endpoint.getD "https://api.cognitive.microsofttranslator.com/"
  match net with
  | LangNet.ok translation =>
    { success := true, languages := translation, error := none }
  | LangNet.err msg =>
    { success := false, error := some msg, languages := [] }

/-! ## openai_client.py -/

/-- Environment variables read by `openai_client.py`. -/
structure OpenAIEnv where
  key : Option String              -- AZURE_OPENAI_API_KEY
  endpoint : Option String         -- AZURE_OPENAI_ENDPOINT
  deployment_name : Option String  -- AZURE_OPENAI_DEPLOYMENT_NAME

/-- One role/content entry of the chat message list. -/
structure ChatMessage where
  role : String
  content : String
deriving DecidableEq, Repr

/-- The request that `client.chat.completions.create` would be called with. -/
structure ChatRequest where
  model : String
  messages : List ChatMessage
  temperature : ℚ
  max_tokens : Nat
deriving DecidableEq, Repr

/-- An exception raised by the OpenAI client call, as inspected by the
`except` block: `message` is `some` when the exception has a (string)
`message` attribute, `body_message` is `some` when it has a truthy dict
`body` attribute with a `"message"` key, and `str` is `str(e)`. -/
structure PyExn where
  message : Option String
  body_message : Option String
  str : String

/-- Token usage triple of a successful chat completion. -/
structure ChatUsage where
  prompt_tokens : Nat
  completion_tokens : Nat
  total_tokens : Nat
deriving DecidableEq, Repr

/-- Outcome of the chat-completion call: first choice's message content and
the usage counts, or an exception. -/
inductive ChatNet where
  | ok (content : String) (usage : ChatUsage)
  | exn (e : PyExn)

/-- The dict returned by `generate_ai_response` (absent keys = `none`). -/
structure CompletionResult where
  success : Bool
  prompt : String
  response : Option String
  usage : Option ChatUsage
  model : Option String
  error : Option String
deriving DecidableEq, Repr

/-- Error-message extraction of the `except` block of
`generate_ai_response`: prefer `e.message`, then `e.body["message"]`,
falling back to `str(e)`. -/
def exnErrorMessage (e : PyExn) : String :=
  match e.message with
  | some m => m
  | none =>
    match e.body_message with
    | some m => m
    | none => e.str

/-- The message-list construction of `generate_ai_response`: a system
message (the caller's when truthy, else the default generic-assistant
instruction) followed by the user prompt. -/
def build_messages (system_message : Option String) (prompt : String) :
    List ChatMessage :=
  let base :=
    if strTruthy system_message then
      [{ role := "system", content := system_message.getD "" }]
    else
      [{ role := "system"
         content := "You are a helpful AI assistant. Provide clear, concise, and accurate responses." }]
  base ++ [{ role := "user", content := prompt }]

/-- `openai_client.generate_ai_response`.  Returns the result dict paired
with the chat request that was sent (`none` when no network call was
attempted). -/
def generate_ai_response (prompt : String) (system_message : Option String)
    (temperature : ℚ) (max_tokens : Nat)
    (api_key endpoint deployment_name : Option String)
    (env : OpenAIEnv) (net : ChatNet) :
    CompletionResult × Option ChatRequest :=
  let api_key := pyOr api_key env.key
  let endpoint := pyOr endpoint env.endpoint
  let deployment_name := pyOr deployment_name (some (env.deployment_name.getD "gpt-4o-mini"))
  if ¬ strTruthy api_key then
    ({ success := false
       error := some "Missing AZURE_OPENAI_API_KEY. Please set it in .env file."
       prompt := prompt
       response := none
       usage := none
       model := none }, none)
  else if ¬ strTruthy endpoint then
    ({ success := false
       error := some "Missing AZURE_OPENAI_ENDPOINT. Please set it in .env file."
       prompt := prompt
       response := none
       usage := none
       model := none }, none)
  else
    let messages := build_messages system_message prompt
    let req : ChatRequest :=
      { model := pyFstr deployment_name
        messages := messages
        temperature := temperature
        max_tokens := max_tokens }
    match net with
    | ChatNet.ok content usage =>
      ({ success := true
         prompt := prompt
         response := some content
         usage := some usage
         model := some (pyFstr deployment_name)
         error := none }, some req)
    | ChatNet.exn e =>
      ({ success := false
         error := some ("OpenAI API Error: " ++ exnErrorMessage e)
         prompt := prompt
         response := none
         usage := none
         model := none }, some req)

/-- The `style_prompts` dict of `summarize_text` (`dict.get`: `none` for an
unknown key). -/
def style_prompts (style : String) : Option String :=
  if style = "concise" then
    some "Provide a brief, concise summary of the following text in 2-3 sentences:"
  else if style = "detailed" then
    some "Provide a comprehensive summary of the following text, covering all key points:"
  else if style = "bullet_points" then
    some "Summarize the following text as bullet points highlighting the key information:"
  else
    none

/-- The instruction line actually used:
`style_prompts.get(style, style_prompts['concise'])`. -/
def summaryStylePrompt (style : String) : String :=
  (style_prompts style).getD
    "Provide a brief, concise summary of the following text in 2-3 sentences:"

/-- `openai_client.summarize_text`.  The extra `generate_ai_response`
parameters model the forwarded `**kwargs` (the pipeline passes none, so the
defaults `0.7`/`1000`/`none` apply there). -/
def summarize_text (text style : String)
    (temperature : ℚ) (max_tokens : Nat)
    (api_key endpoint deployment_name : Option String)
    (env : OpenAIEnv) (net : ChatNet) :
    CompletionResult × Option ChatRequest :=
  generate_ai_response (summaryStylePrompt style ++ "\n\n" ++ text)
    (some "You are an expert summarizer. Create clear and accurate summaries.")
    temperature max_tokens api_key endpoint deployment_name env net

/-! ## document_processor.py -/

/-- The dict returned by the extraction functions (absent keys = `none`). -/
structure ExtractionResult where
  success : Bool
  text : Option String
  page_count : Option Nat := none
  paragraph_count : Option Nat := none
  file_type : Option String := none
  error : Option String
deriving DecidableEq, Repr

/-- A parsed PDF: the per-page results of `page.extract_text()` (which is a
string or `None`), in page order.  `Except.error` = `pdfplumber` raised. -/
def PdfDoc := Except String (List (Option String))

/-- A parsed DOCX: the `para.text` of each paragraph in order.
`Except.error` = `python-docx` raised. -/
def DocxDoc := Except String (List String)

/-- A text file read as UTF-8: its content, or the reading error. -/
def TxtDoc := Except String String

/-- The loop body of `extract_text_from_pdf`: pages enumerated from `n`,
keeping (page number, text) for every truthy `page.extract_text()` result. -/
def pdfKeptPages (n : Nat) : List (Option String) → List (Nat × String)
  | [] => []
  | p :: ps =>
    if strTruthy p then (n, p.getD "") :: pdfKeptPages (n + 1) ps
    else pdfKeptPages (n + 1) ps

/-- The `text_content` list of `extract_text_from_pdf`: one
`"--- Page N ---\n" ++ text` block per contributing page. -/
def pdfTextContent (pages : List (Option String)) : List String :=
  (pdfKeptPages 1 pages).map
    (fun pt => "--- Page " ++ toString pt.1 ++ " ---\n" ++ pt.2)

/-- `document_processor.extract_text_from_pdf`. -/
def extract_text_from_pdf (doc : PdfDoc) : ExtractionResult :=
  match doc with
  | Except.ok pages =>
    let text_content := pdfTextContent pages
    { success := true
      text := some (String.intercalate "\n\n" text_content)
      page_count := some text_content.length
      file_type := some "pdf"
      error := none }
  | Except.error e =>
    { success := false
      text := none
      error := some ("Failed to extract PDF text: " ++ e) }

/-- `document_processor.extract_text_from_docx`: keeps paragraphs whose
stripped text is truthy, joined by blank lines. -/
def extract_text_from_docx (doc : DocxDoc) : ExtractionResult :=
  match doc with
  | Except.ok paras =>
    let paragraphs := paras.filter (fun p => p.trim ≠ "")
    { success := true
      text := some (String.intercalate "\n\n" paragraphs)
      paragraph_count := some paragraphs.length
      file_type := some "docx"
      error := none }
  | Except.error e =>
    { success := false
      text := none
      error := some ("Failed to extract DOCX text: " ++ e) }

/-- `document_processor.extract_text_from_txt`. -/
def extract_text_from_txt (doc : TxtDoc) : ExtractionResult :=
  match doc with
  | Except.ok text =>
    { success := true
      text := some text
      file_type := some "txt"
      error := none }
  | Except.error e =>
    { success := false
      text := none
      error := some ("Failed to read text file: " ++ e) }

/-- The filesystem seen by `extract_text`: existence, and what each parsing
library would yield at a given path. -/
structure FileSystem where
  pathExists : String → Bool
  pdf : String → PdfDoc
  docx : String → DocxDoc
  txt : String → TxtDoc

/-- Extension part of CPython `os.path.splitext` (POSIX separator), on the
character list: the substring from the last `'.'` of the basename, provided
some non-dot character of the basename precedes that dot. -/
def splitextExtChars (cs : List Char) : List Char :=
  let b := (cs.reverse.takeWhile (fun c => c ≠ '/')).reverse
  let rb := b.reverse
  let afterDotRev := rb.takeWhile (fun c => c ≠ '.')
  let rest := rb.dropWhile (fun c => c ≠ '.')
  match rest with
  | [] => []
  | _ :: beforeRev =>
    if beforeRev.any (fun c => c ≠ '.') then '.' :: afterDotRev.reverse
    else []

/-- `ext.lower().lstrip('.')` applied to the `splitext` extension of a path:
the file type `extract_text` derives when no `file_type` is passed. -/
def extFileType (path : String) : String :=
  String.mk (((splitextExtChars path.data).map Char.toLower).dropWhile
    (fun c => c = '.'))

/-- The type `extract_text` resolves: the (truthy) `file_type` argument, or
else the lowercased, dot-stripped extension of the path. -/
def resolvedFileType (path : String) (file_type : Option String) : String :=
  if strTruthy file_type then file_type.getD "" else extFileType path

/-- `document_processor.extract_text`. -/
def extract_text (fs : FileSystem) (file_path : String)
    (file_type : Option String) : ExtractionResult :=
  if ¬ fs.pathExists file_path then
    { success := false
      text := none
      error := some ("File not found: " ++ file_path) }
  else
    let ft := resolvedFileType file_path file_type
    if ft = "pdf" then extract_text_from_pdf (fs.pdf file_path)
    else if ft = "docx" then extract_text_from_docx (fs.docx file_path)
    else if ft = "txt" then extract_text_from_txt (fs.txt file_path)
    else if ft = "text" then extract_text_from_txt (fs.txt file_path)
    else
      { success := false
        text := none
        error := some ("Unsupported file type: " ++ ft ++ ". Supported: pdf, docx, txt") }

/-! ## main.py -/

/-- The `final_output` dict assembled on pipeline success. -/
structure FinalOutput where
  original_text : String
  english_summary : String
  translated_summary : Option String
  target_language : String
deriving DecidableEq, Repr

/-- The dict returned by `process_and_translate`; `stages_translator = none`
models the `"translator"` key never having been written. -/
structure PipelineResult where
  input : String
  target_language : String
  stages_openai_summary : CompletionResult
  stages_translator : Option TranslationResult
  success : Bool
  error : Option String
  final_output : Option FinalOutput

/-- `main.process_and_translate`: summarize with the OpenAI client, then
translate the summary from `"en"` to the target language.  The overall
result is `none` when the translate call would raise (exception propagates
out of the pipeline).  The summarize call forwards no `**kwargs`, so the
source defaults `temperature=0.7`, `max_tokens=1000` and env-based
credentials apply. -/
def process_and_translate (input_text target_language summary_style : String)
    (oenv : OpenAIEnv) (tenv : TranslatorEnv)
    (chatNet : ChatNet) (transNet : TransNet) : Option PipelineResult :=
  let summary_result := (summarize_text input_text summary_style
    (7/10 : ℚ) 1000 none none none oenv chatNet).1
  if summary_result.success = false then
    some { input := input_text
           target_language := target_language
           stages_openai_summary := summary_result
           stages_translator := none
           success := false
           error := some ("OpenAI stage failed: " ++ pyFstr summary_result.error)
           final_output := none }
  else
    let summary := pyFstr summary_result.response
    let translation_result := (translate_text summary "en" target_language
      none none none tenv transNet).1
    match translation_result with
    | none => none
    | some tr =>
      if tr.success = false then
        some { input := input_text
               target_language := target_language
               stages_openai_summary := summary_result
               stages_translator := some tr
               success := false
               error := some ("Translator stage failed: " ++ pyFstr tr.error)
               final_output := none }
      else
        some { input := input_text
               target_language := target_language
               stages_openai_summary := summary_result
               stages_translator := some tr
               success := true
               error := none
               final_output := some
                 { original_text := input_text
                   english_summary := summary
                   translated_summary := tr.translated_text
                   target_language := target_language } }

/-! ## Concrete fixtures used by witnesses and counterexamples -/

/-- A filesystem on which every path exists and reads as the text file
`"hello"`. -/
def fsAllText : FileSystem :=
  { pathExists := fun _ => true
    pdf := fun _ => Except.error "not a pdf"
    docx := fun _ => Except.error "not a docx"
    txt := fun _ => Except.ok "hello" }

/-- A filesystem on which no path exists. -/
def fsMissing : FileSystem :=
  { pathExists := fun _ => false
    pdf := fun _ => Except.ok []
    docx := fun _ => Except.ok []
    txt := fun _ => Except.ok "" }

/-! ## Theorems -/

/-- C1: for every input to `translate_text`, any returned `TranslationResult`
populates exactly one of `translated_text` and `error`: when `success` is
true, `translated_text` is non-null and `error` is null; when `success` is
false, `error` is a non-null message and `translated_text` is null. -/
theorem translate_text_result_exclusive
    (text source_lang target_lang : String)
    (api_key region endpoint : Option String)
    (env : TranslatorEnv) (net : TransNet) (r : TranslationResult)
    (h : (translate_text text source_lang target_lang api_key region endpoint
            env net).1 = some r) :
    (r.success = true → (∃ t, r.translated_text = some t) ∧ r.error = none) ∧
    (r.success = false → (∃ e, r.error = some e) ∧ r.translated_text = none) := by
  cases hk : strTruthy (pyOr api_key env.key)
  · simp [translate_text, hk] at h
    subst h
    simp
  · cases net with
    | ok body =>
      cases body with
      | nil =>
        simp [translate_text, hk] at h
        subst h
        simp
      | cons translation rest =>
        cases htr : translation.translations with
        | nil => simp [translate_text, hk, htr] at h
        | cons t ts =>
          simp [translate_text, hk, htr] at h
          subst h
          simp
    | httpError status detail =>
      simp [translate_text, hk] at h
      subst h
      simp
    | reqError msg =>
      simp [translate_text, hk] at h
      subst h
      simp

/-- C1 witness: a concrete successful call populates `translated_text` and
not `error`. -/
theorem translate_text_result_exclusive_witness :
    (({ success := true, original_text := "Hello", translated_text := some "Namaste"
        source_language := "en", target_language := "hi"
        detected_language := some "en", error := none } : TranslationResult).success = true →
      (∃ t, ({ success := true, original_text := "Hello", translated_text := some "Namaste"
               source_language := "en", target_language := "hi"
               detected_language := some "en", error := none } : TranslationResult).translated_text = some t) ∧
        ({ success := true, original_text := "Hello", translated_text := some "Namaste"
           source_language := "en", target_language := "hi"
           detected_language := some "en", error := none } : TranslationResult).error = none) ∧
    (({ success := true, original_text := "Hello", translated_text := some "Namaste"
        source_language := "en", target_language := "hi"
        detected_language := some "en", error := none } : TranslationResult).success = false →
      (∃ e, ({ success := true, original_text := "Hello", translated_text := some "Namaste"
               source_language := "en", target_language := "hi"
               detected_language := some "en", error := none } : TranslationResult).error = some e) ∧
        ({ success := true, original_text := "Hello", translated_text := some "Namaste"
           source_language := "en", target_language := "hi"
           detected_language := some "en", error := none } : TranslationResult).translated_text = none) :=
  translate_text_result_exclusive "Hello" "en" "hi" (some "key") none none
    ⟨none, none, none⟩ (TransNet.ok [⟨["Namaste"], some "en"⟩]) _ rfl

/-- C3: when no API key is available (neither the argument nor the
environment variable is a truthy string), `translate_text` returns the
missing-credential failure immediately, with the network flag `false`, for
every network oracle — no network call is performed, and the message tells
the caller to set the key in the `.env` file. -/
theorem translate_text_missing_key
    (text source_lang target_lang : String)
    (api_key region endpoint : Option String)
    (env : TranslatorEnv) (net : TransNet)
    (hArg : strTruthy api_key = false) (hEnv : strTruthy env.key = false) :
    translate_text text source_lang target_lang api_key region endpoint env net =
      (some { success := false
              error := some "Missing AZURE_TRANSLATOR_KEY. Please set it in .env file."
              original_text := text
              translated_text := none
              source_language := source_lang
              target_language := target_lang
              detected_language := none }, false) := by
  have hk : strTruthy (pyOr api_key env.key) = false := by
    simp [pyOr, hArg, hEnv]
  simp [translate_text, hk]

/-- C3 witness: with no key anywhere, even a well-formed network response is
never requested (flag `false`). -/
theorem translate_text_missing_key_witness :
    translate_text "Hello" "en" "hi" none none none
      ⟨none, some "centralindia", none⟩ (TransNet.ok [⟨["Namaste"], none⟩]) =
      (some { success := false
              error := some "Missing AZURE_TRANSLATOR_KEY. Please set it in .env file."
              original_text := "Hello"
              translated_text := none
              source_language := "en"
              target_language := "hi"
              detected_language := none }, false) :=
  translate_text_missing_key "Hello" "en" "hi" none none none
    ⟨none, some "centralindia", none⟩ (TransNet.ok [⟨["Namaste"], none⟩]) rfl rfl

/-- Appending on the right preserves the first character of a string. -/
theorem data_head_append (s : String) (h : s.data.head? = some 'H') (t : String) :
    (s ++ t).data.head? = some 'H' := by
  rw [String.data_append]
  cases hd : s.data with
  | nil => simp [hd] at h
  | cons c cs =>
    simp [hd] at h ⊢
    exact h

/-- A string starting with `'H'` is not the empty-response message. -/
theorem http_msg_ne_empty (s : String) (h : s.data.head? = some 'H') :
    s ≠ "Empty response from Translator API" := by
  intro he
  rw [he] at h
  exact absurd h (by decide)

/-- C8: with a key available, a 2xx response with zero results yields the
empty-response failure, while a non-2xx response yields a failure reporting
the status code (with the parsed provider message appended when present);
the two error messages are always distinct. -/
theorem translate_text_empty_vs_http
    (text source_lang target_lang : String)
    (api_key region endpoint : Option String)
    (env : TranslatorEnv) (status : Nat) (detail : Option String)
    (hk : strTruthy (pyOr api_key env.key) = true) :
    ((translate_text text source_lang target_lang api_key region endpoint env
        (TransNet.ok [])).1 =
      some { success := false
             error := some "Empty response from Translator API"
             original_text := text
             translated_text := none
             source_language := source_lang
             target_language := target_lang
             detected_language := none }) ∧
    (∃ e, (translate_text text source_lang target_lang api_key region endpoint env
            (TransNet.httpError status detail)).1 =
        some { success := false
               error := some e
               original_text := text
               translated_text := none
               source_language := source_lang
               target_language := target_lang
               detected_language := none } ∧
      e = (match detail with
           | some m => "HTTP Error: " ++ toString status ++ " - " ++ m
           | none => "HTTP Error: " ++ toString status) ∧
      e ≠ "Empty response from Translator API") := by
  constructor
  · simp [translate_text, hk]
  · cases detail with
    | none =>
      exact ⟨"HTTP Error: " ++ toString status,
        by simp [translate_text, hk], rfl,
        http_msg_ne_empty _ (data_head_append "HTTP Error: " rfl (toString status))⟩
    | some m =>
      refine ⟨"HTTP Error: " ++ toString status ++ " - " ++ m,
        by simp [translate_text, hk], rfl, http_msg_ne_empty _ ?_⟩
      exact data_head_append ("HTTP Error: " ++ toString status ++ " - ")
        (data_head_append ("HTTP Error: " ++ toString status)
          (data_head_append "HTTP Error: " rfl (toString status)) " - ") m

/-- C8 witness: concrete empty-array and 401 responses give the two distinct
failure messages. -/
theorem translate_text_empty_vs_http_witness :
    ((translate_text "Hi" "en" "fr" (some "k") none none ⟨none, none, none⟩
        (TransNet.ok [])).1 =
      some { success := false
             error := some "Empty response from Translator API"
             original_text := "Hi"
             translated_text := none
             source_language := "en"
             target_language := "fr"
             detected_language := none }) ∧
    (∃ e, (translate_text "Hi" "en" "fr" (some "k") none none ⟨none, none, none⟩
            (TransNet.httpError 401 (some "Invalid key"))).1 =
        some { success := false
               error := some e
               original_text := "Hi"
               translated_text := none
               source_language := "en"
               target_language := "fr"
               detected_language := none } ∧
      e = (match (some "Invalid key" : Option String) with
           | some m => "HTTP Error: " ++ toString 401 ++ " - " ++ m
           | none => "HTTP Error: " ++ toString 401) ∧
      e ≠ "Empty response from Translator API") :=
  translate_text_empty_vs_http "Hi" "en" "fr" (some "k") none none
    ⟨none, none, none⟩ 401 (some "Invalid key") rfl

/-- C9: `get_supported_languages` maps a successful GET to
`{success := true, languages := the provider translation mapping}`, collapses
every failure to `{success := false, error := message, languages := {}}`
(it never throws: it is total), and its behaviour is independent of any
credential in the environment. -/
theorem get_supported_languages_contract (env : TranslatorEnv) (net : LangNet) :
    (∀ m, net = LangNet.ok m →
      get_supported_languages env net =
        { success := true, languages := m, error := none }) ∧
    (∀ e, net = LangNet.err e →
      get_supported_languages env net =
        { success := false, languages := [], error := some e }) ∧
    (∀ key region, get_supported_languages { env with key := key, region := region } net =
      get_supported_languages env net) := by
  refine ⟨fun m hm => by subst hm; rfl, fun e he => by subst he; rfl,
    fun key region => ?_⟩
  cases net <;> rfl

/-- C9 witness: a concrete success and a concrete failure. -/
theorem get_supported_languages_contract_witness :
    get_supported_languages ⟨none, none, none⟩ (LangNet.ok [("hi", "Hindi")]) =
      { success := true, languages := [("hi", "Hindi")], error := none } ∧
    get_supported_languages ⟨none, none, none⟩ (LangNet.err "Connection aborted") =
      { success := false, languages := [], error := some "Connection aborted" } :=
  ⟨(get_supported_languages_contract ⟨none, none, none⟩
      (LangNet.ok [("hi", "Hindi")])).1 [("hi", "Hindi")] rfl,
   (get_supported_languages_contract ⟨none, none, none⟩
      (LangNet.err "Connection aborted")).2.1 "Connection aborted" rfl⟩

/-- C4: `generate_ai_response` with a missing (falsy) API key, or with a key
but a missing endpoint, returns immediately the failure naming the missing
configuration item, with no chat request sent (`none`), for every network
oracle. -/
theorem generate_ai_response_missing_config
    (prompt : String) (system_message : Option String)
    (temperature : ℚ) (max_tokens : Nat)
    (api_key endpoint deployment_name : Option String)
    (env : OpenAIEnv) (net : ChatNet) :
    (strTruthy (pyOr api_key env.key) = false →
      generate_ai_response prompt system_message temperature max_tokens
          api_key endpoint deployment_name env net =
        ({ success := false
           error := some "Missing AZURE_OPENAI_API_KEY. Please set it in .env file."
           prompt := prompt
           response := none
           usage := none
           model := none }, none)) ∧
    (strTruthy (pyOr api_key env.key) = true →
      strTruthy (pyOr endpoint env.endpoint) = false →
      generate_ai_response prompt system_message temperature max_tokens
          api_key endpoint deployment_name env net =
        ({ success := false
           error := some "Missing AZURE_OPENAI_ENDPOINT. Please set it in .env file."
           prompt := prompt
           response := none
           usage := none
           model := none }, none)) := by
  constructor
  · intro hkey
    simp [generate_ai_response, hkey]
  · intro hkey hend
    simp [generate_ai_response, hkey, hend]

/-- C4 witness: no key, and key-but-no-endpoint, each fail without a request
even though a well-formed completion is available from the oracle. -/
theorem generate_ai_response_missing_config_witness :
    generate_ai_response "Q" none (7/10 : ℚ) 1000 none none none
        ⟨none, none, none⟩ (ChatNet.ok "A" ⟨1, 1, 2⟩) =
      ({ success := false
         error := some "Missing AZURE_OPENAI_API_KEY. Please set it in .env file."
         prompt := "Q"
         response := none
         usage := none
         model := none }, none) ∧
    generate_ai_response "Q" none (7/10 : ℚ) 1000 (some "k") none none
        ⟨none, none, none⟩ (ChatNet.ok "A" ⟨1, 1, 2⟩) =
      ({ success := false
         error := some "Missing AZURE_OPENAI_ENDPOINT. Please set it in .env file."
         prompt := "Q"
         response := none
         usage := none
         model := none }, none) :=
  ⟨(generate_ai_response_missing_config "Q" none (7/10 : ℚ) 1000 none none none
      ⟨none, none, none⟩ (ChatNet.ok "A" ⟨1, 1, 2⟩)).1 rfl,
   (generate_ai_response_missing_config "Q" none (7/10 : ℚ) 1000 (some "k") none none
      ⟨none, none, none⟩ (ChatNet.ok "A" ⟨1, 1, 2⟩)).2 rfl rfl⟩

/-- C10: passing `system_message = ""` to `generate_ai_response` behaves
exactly like passing no system message (the falsy check selects the default
generic-assistant instruction), and any request actually sent then starts
with the default system message. -/
theorem generate_ai_response_empty_system_message
    (prompt : String) (temperature : ℚ) (max_tokens : Nat)
    (api_key endpoint deployment_name : Option String)
    (env : OpenAIEnv) (net : ChatNet) :
    generate_ai_response prompt (some "") temperature max_tokens
        api_key endpoint deployment_name env net =
      generate_ai_response prompt none temperature max_tokens
        api_key endpoint deployment_name env net ∧
    build_messages (some "") prompt = build_messages none prompt ∧
    (∀ req, (generate_ai_response prompt (some "") temperature max_tokens
        api_key endpoint deployment_name env net).2 = some req →
      req.messages.head? = some
        { role := "system"
          content := "You are a helpful AI assistant. Provide clear, concise, and accurate responses." }) := by
  refine ⟨rfl, rfl, fun req hreq => ?_⟩
  simp only [generate_ai_response] at hreq
  split at hreq
  · simp at hreq
  · split at hreq
    · simp at hreq
    · split at hreq <;> simp only [Option.some.injEq] at hreq <;> subst hreq <;> rfl

/-- C10 witness: with full config, the empty-string system message sends the
default system message. -/
theorem generate_ai_response_empty_system_message_witness :
    (generate_ai_response "Q" (some "") (7/10 : ℚ) 1000 (some "k") (some "e") none
        ⟨none, none, none⟩ (ChatNet.ok "A" ⟨1, 1, 2⟩)).2 =
      some { model := "gpt-4o-mini"
             messages := [{ role := "system"
                            content := "You are a helpful AI assistant. Provide clear, concise, and accurate responses." },
                          { role := "user", content := "Q" }]
             temperature := (7/10 : ℚ)
             max_tokens := 1000 } ∧
    ({ model := "gpt-4o-mini"
       messages := [{ role := "system"
                      content := "You are a helpful AI assistant. Provide clear, concise, and accurate responses." },
                    { role := "user", content := "Q" }]
       temperature := (7/10 : ℚ)
       max_tokens := 1000 } : ChatRequest).messages.head? = some
      { role := "system"
        content := "You are a helpful AI assistant. Provide clear, concise, and accurate responses." } :=
  ⟨rfl,
   (generate_ai_response_empty_system_message "Q" (7/10 : ℚ) 1000 (some "k") (some "e") none
      ⟨none, none, none⟩ (ChatNet.ok "A" ⟨1, 1, 2⟩)).2.2 _ rfl⟩

/-- C7: `summarize_text` delegates to `generate_ai_response` on the prompt
built by prepending the style instruction line (for the three known styles,
with silent fallback to the concise line for any unknown style) to the text,
with the fixed expert-summarizer system message — so it adds no failure
modes of its own. -/
theorem summarize_text_prompt_contract
    (text style : String) (temperature : ℚ) (max_tokens : Nat)
    (api_key endpoint deployment_name : Option String)
    (env : OpenAIEnv) (net : ChatNet) :
    summarize_text text style temperature max_tokens
        api_key endpoint deployment_name env net =
      generate_ai_response (summaryStylePrompt style ++ "\n\n" ++ text)
        (some "You are an expert summarizer. Create clear and accurate summaries.")
        temperature max_tokens api_key endpoint deployment_name env net ∧
    summaryStylePrompt "concise" =
      "Provide a brief, concise summary of the following text in 2-3 sentences:" ∧
    summaryStylePrompt "detailed" =
      "Provide a comprehensive summary of the following text, covering all key points:" ∧
    summaryStylePrompt "bullet_points" =
      "Summarize the following text as bullet points highlighting the key information:" ∧
    (style ≠ "concise" → style ≠ "detailed" → style ≠ "bullet_points" →
      summaryStylePrompt style = summaryStylePrompt "concise") := by
  refine ⟨rfl, rfl, rfl, rfl, fun h1 h2 h3 => ?_⟩
  simp [summaryStylePrompt, style_prompts, h1, h2, h3]

/-- C7 witness: an unknown style falls back to the concise instruction. -/
theorem summarize_text_prompt_contract_witness :
    summarize_text "T" "weird" (7/10 : ℚ) 1000 none none none
        ⟨none, none, none⟩ (ChatNet.ok "S" ⟨1, 1, 2⟩) =
      generate_ai_response (summaryStylePrompt "weird" ++ "\n\n" ++ "T")
        (some "You are an expert summarizer. Create clear and accurate summaries.")
        (7/10 : ℚ) 1000 none none none ⟨none, none, none⟩ (ChatNet.ok "S" ⟨1, 1, 2⟩) ∧
    summaryStylePrompt "weird" = summaryStylePrompt "concise" := by
  have h := summarize_text_prompt_contract "T" "weird" (7/10 : ℚ) 1000 none none none
    ⟨none, none, none⟩ (ChatNet.ok "S" ⟨1, 1, 2⟩)
  exact ⟨h.1, h.2.2.2.2 (by decide) (by decide) (by decide)⟩

/-- C5 counterexample: the claim says every resolved type outside
`{pdf, docx, txt}` yields a failure, but `extract_text` also accepts the
resolved type `"text"` (routed to the txt reader) and succeeds on it. -/
theorem extract_text_text_alias_counterexample :
    resolvedFileType "notes.bin" (some "text") = "text" ∧
    ("text" ≠ "pdf" ∧ "text" ≠ "docx" ∧ "text" ≠ "txt") ∧
    extract_text fsAllText "notes.bin" (some "text") =
      { success := true, text := some "hello", file_type := some "txt", error := none } := by
  refine ⟨rfl, by decide, rfl⟩

/-- C5 (amended): `extract_text` resolves the type from the truthy
`type_hint` or else the file extension; the accepted set is
`{pdf, docx, txt, text}` (`text` an alias routed to the txt reader); any
other resolved type yields a failure whose message lists `pdf, docx, txt`;
and a non-existent path yields a failure whose value is independent of all
parsers (no parse is attempted), never throwing. -/
theorem extract_text_amended_contract
    (fs : FileSystem) (file_path : String) (file_type : Option String) :
    (fs.pathExists file_path = false →
      extract_text fs file_path file_type =
        { success := false, text := none
          error := some ("File not found: " ++ file_path) }) ∧
    (fs.pathExists file_path = true →
      resolvedFileType file_path file_type ≠ "pdf" →
      resolvedFileType file_path file_type ≠ "docx" →
      resolvedFileType file_path file_type ≠ "txt" →
      resolvedFileType file_path file_type ≠ "text" →
      extract_text fs file_path file_type =
        { success := false, text := none
          error := some ("Unsupported file type: " ++ resolvedFileType file_path file_type ++
            ". Supported: pdf, docx, txt") }) ∧
    (fs.pathExists file_path = true →
      resolvedFileType file_path file_type = "text" →
      extract_text fs file_path file_type = extract_text_from_txt (fs.txt file_path)) := by
  refine ⟨fun h => ?_, fun h h1 h2 h3 h4 => ?_, fun h ht => ?_⟩
  · simp [extract_text, h]
  · simp [extract_text, h, h1, h2, h3, h4]
  · simp [extract_text, h, ht]

/-- C5 witness: an `.exe` path resolves to an unsupported type listing the
supported ones, and a missing path fails without parsing. -/
theorem extract_text_amended_contract_witness :
    extract_text fsAllText "virus.exe" none =
      { success := false, text := none
        error := some ("Unsupported file type: " ++ resolvedFileType "virus.exe" none ++
          ". Supported: pdf, docx, txt") } ∧
    extract_text fsMissing "report.pdf" none =
      { success := false, text := none, error := some ("File not found: " ++ "report.pdf") } :=
  ⟨(extract_text_amended_contract fsAllText "virus.exe" none).2.1 rfl
      (by decide) (by decide) (by decide) (by decide),
   (extract_text_amended_contract fsMissing "report.pdf" none).1 rfl⟩

/-- The kept pages of `pdfKeptPages` are exactly as many as the truthy
pages. -/
theorem pdfKeptPages_length (n : Nat) (pages : List (Option String)) :
    (pdfKeptPages n pages).length = (pages.filter strTruthy).length := by
  induction pages generalizing n with
  | nil => rfl
  | cons p ps ih =>
    cases hp : strTruthy p <;>
      simp [pdfKeptPages, List.filter_cons, hp, ih]

/-- Every page number recorded by `pdfKeptPages n` is at least `n`. -/
theorem pdfKeptPages_ge (pages : List (Option String)) :
    ∀ n, ∀ x ∈ pdfKeptPages n pages, n ≤ x.1 := by
  induction pages with
  | nil => intro n x hx; simp [pdfKeptPages] at hx
  | cons p ps ih =>
    intro n x hx
    cases hp : strTruthy p <;> simp only [pdfKeptPages, hp] at hx
    · exact Nat.le_of_succ_le (ih (n + 1) x hx)
    · simp only [Bool.true_eq_false, if_true, List.mem_cons] at hx
      rcases hx with rfl | hx
      · exact le_rfl
      · exact Nat.le_of_succ_le (ih (n + 1) x hx)

/-- The page numbers recorded by `pdfKeptPages` are strictly increasing, so
the page-delimiter labels appear in page order. -/
theorem pdfKeptPages_pairwise (pages : List (Option String)) :
    ∀ n, ((pdfKeptPages n pages).map Prod.fst).Pairwise (· < ·) := by
  induction pages with
  | nil => intro n; simp [pdfKeptPages]
  | cons p ps ih =>
    intro n
    cases hp : strTruthy p <;> simp only [pdfKeptPages, hp]
    · exact ih (n + 1)
    · simp only [Bool.true_eq_false, if_true, List.map_cons, List.pairwise_cons]
      refine ⟨fun b hb => ?_, ih (n + 1)⟩
      obtain ⟨x, hx, rfl⟩ := List.mem_map.mp hb
      exact Nat.lt_of_succ_le (pdfKeptPages_ge ps (n + 1) x hx)

/-- C6: `extract_text_from_pdf` on a readable PDF succeeds with the
blank-line join of one `"--- Page N ---"`-labelled block per page with
truthy text, records that block count as the page count; there are exactly
as many labels as pages with text, their page numbers are strictly
increasing (in order), and pages with empty or missing text contribute no
block. -/
theorem extract_text_from_pdf_contract (pages : List (Option String)) :
    extract_text_from_pdf (Except.ok pages) =
      { success := true
        text := some (String.intercalate "\n\n" (pdfTextContent pages))
        page_count := some (pdfTextContent pages).length
        file_type := some "pdf"
        error := none } ∧
    pdfTextContent pages =
      (pdfKeptPages 1 pages).map
        (fun pt => "--- Page " ++ toString pt.1 ++ " ---\n" ++ pt.2) ∧
    (pdfTextContent pages).length = (pages.filter strTruthy).length ∧
    ((pdfKeptPages 1 pages).map Prod.fst).Pairwise (· < ·) ∧
    (∀ n ps, pdfKeptPages n (none :: ps) = pdfKeptPages (n + 1) ps) ∧
    (∀ n ps, pdfKeptPages n (some "" :: ps) = pdfKeptPages (n + 1) ps) := by
  refine ⟨rfl, rfl, ?_, pdfKeptPages_pairwise pages 1, fun n ps => rfl, fun n ps => rfl⟩
  simp [pdfTextContent, pdfKeptPages_length]

/-- C2: in `process_and_translate`, if the summarize stage fails the
pipeline returns immediately: the translator stage is never written (and
hence `translate_text` is never invoked), `success` is `false`, and the
error message begins with the failing stage's name (`"OpenAI stage failed: "`);
when the summarize stage succeeds, the recorded translator stage is exactly
the result of `translate_text` applied to the summarize output with source
language `"en"` and the caller's target. -/
theorem process_and_translate_stage_contract
    (input_text target_language summary_style : String)
    (oenv : OpenAIEnv) (tenv : TranslatorEnv)
    (chatNet : ChatNet) (transNet : TransNet) (sr : CompletionResult)
    (hsr : (summarize_text input_text summary_style (7/10 : ℚ) 1000
      none none none oenv chatNet).1 = sr) :
    (sr.success = false →
      process_and_translate input_text target_language summary_style
          oenv tenv chatNet transNet =
        some { input := input_text
               target_language := target_language
               stages_openai_summary := sr
               stages_translator := none
               success := false
               error := some ("OpenAI stage failed: " ++ pyFstr sr.error)
               final_output := none }) ∧
    (sr.success = true →
      ∀ r, process_and_translate input_text target_language summary_style
          oenv tenv chatNet transNet = some r →
        r.stages_translator =
          (translate_text (pyFstr sr.response) "en" target_language
            none none none tenv transNet).1) := by
  constructor
  · intro hfail
    simp [process_and_translate, hsr, hfail]
  · intro hsucc r hr
    simp only [process_and_translate, hsr, hsucc] at hr
    simp only [Bool.true_eq_false, if_false] at hr
    rcases htr : (translate_text (pyFstr sr.response) "en" target_language
        none none none tenv transNet).1 with _ | tr
    · rw [htr] at hr
      simp at hr
    · rw [htr] at hr
      cases hts : tr.success
      · simp [hts] at hr
        subst hr
        simp
      · simp [hts] at hr
        subst hr
        simp

/-- C2 witness: with no OpenAI key the summarize stage fails, the pipeline
result carries the stage-qualified error and no translator stage, even
though the translator oracle has a well-formed response available. -/
theorem process_and_translate_stage_contract_witness :
    process_and_translate "Some text" "hi" "concise" ⟨none, none, none⟩
        ⟨some "tkey", none, none⟩ (ChatNet.ok "S" ⟨1, 1, 2⟩)
        (TransNet.ok [⟨["X"], none⟩]) =
      some { input := "Some text"
             target_language := "hi"
             stages_openai_summary :=
               { success := false
                 prompt := summaryStylePrompt "concise" ++ "\n\n" ++ "Some text"
                 response := none
                 usage := none
                 model := none
                 error := some "Missing AZURE_OPENAI_API_KEY. Please set it in .env file." }
             stages_translator := none
             success := false
             error := some ("OpenAI stage failed: " ++
               "Missing AZURE_OPENAI_API_KEY. Please set it in .env file.")
             final_output := none } :=
  (process_and_translate_stage_contract "Some text" "hi" "concise"
    ⟨none, none, none⟩ ⟨some "tkey", none, none⟩ (ChatNet.ok "S" ⟨1, 1, 2⟩)
    (TransNet.ok [⟨["X"], none⟩])
    { success := false
      prompt := summaryStylePrompt "concise" ++ "\n\n" ++ "Some text"
      response := none
      usage := none
      model := none
      error := some "Missing AZURE_OPENAI_API_KEY. Please set it in .env file." }
    rfl).1 rfl
